import Mathlib

/-!
Shallow embedding of the reconciliation/quota/retry core of
`implementations/python/setup_oci_terraform.py` (CloudCradle), together with
theorems settling the frozen claims about it.

Machine integers are modelled as `Int` (Python integers are unbounded, so no
wrap-around is needed).  Python dicts are modelled as association lists in
insertion order.  Interactive prompts and subprocess outcomes are modelled as
explicit inputs (functions indexed by attempt number or instance number).
-/

namespace CloudCradle

/-! ## Free Tier constants (lines 75-98 of the source) -/

def FREE_TIER_MAX_AMD_INSTANCES : Int := 2
def FREE_TIER_MAX_ARM_OCPUS : Int := 4
def FREE_TIER_MAX_ARM_MEMORY_GB : Int := 24
def FREE_TIER_MAX_STORAGE_GB : Int := 200
def FREE_TIER_MIN_BOOT_VOLUME_GB : Int := 47
def FREE_TIER_MAX_ARM_INSTANCES : Int := 4
def FREE_TIER_MAX_VCNS : Int := 2

def RETRY_MAX_ATTEMPTS : Nat := 8
def RETRY_BASE_DELAY : Nat := 15

/-! ## Substring matching (Python's `in` operator on strings) -/

/-- Does `pat` occur as a contiguous run inside `text`?  Executable model of
Python's `pat in text` on strings, working on character lists. -/
def containsSub (pat : List Char) : List Char → Bool
  | [] => pat.isEmpty
  | c :: cs => pat.isPrefixOf (c :: cs) || containsSub pat cs

/-- Python `pat in s` (case sensitive). -/
def strContainsSub (s pat : String) : Bool :=
  containsSub pat.toList s.toList

/-- Python `pat in s.lower()`: case-insensitive containment of an
already-lowercase pattern. -/
def lowerContains (s pat : String) : Bool :=
  containsSub pat.toList (s.toList.map Char.toLower)

/-- The fixed capacity-signal substrings of lines 499, 525 and 2740. -/
def capacityTerms : List String :=
  ["out of capacity", "out of host capacity", "outofcapacity", "outofhostcapacity"]

/-- `any(term in text.lower() for term in [...])` as used at line 2740. -/
def isCapacitySignal (text : String) : Bool :=
  capacityTerms.any (fun t => lowerContains text t)

/-! ## `retry_with_backoff` (lines 487-515)

The retried callable is modelled as a function from the (1-indexed) attempt
number to that attempt's outcome.  The model returns the final outcome
(`Except.error lastError` models `raise last_error`, with `none` standing for
Python's `last_error = None`), the list of sleep durations performed, and the
number of attempts executed. -/

def retryGo {α : Type} (results : Nat → Except String α) (maxAttempts baseDelay : Nat)
    (lastError : Option String) (attempt : Nat) :
    Except (Option String) α × List Nat × Nat :=
  if _h1 : attempt ≤ maxAttempts then
    match results attempt with
    | Except.ok a => (Except.ok a, [], 1)
    | Except.error e =>
      if _h2 : attempt < maxAttempts then
        let rest := retryGo results maxAttempts baseDelay (some e) (attempt + 1)
        (rest.1, baseDelay * 2 ^ (attempt - 1) :: rest.2.1, rest.2.2 + 1)
      else
        (Except.error (some e), [], 1)
  else
    (Except.error lastError, [], 0)
termination_by maxAttempts + 1 - attempt

/-- The retry loop entered at attempt 1 with `last_error = None`; the source
defaults are `maxAttempts = RETRY_MAX_ATTEMPTS` and
`baseDelay = RETRY_BASE_DELAY`. -/
def retry_with_backoff {α : Type} (results : Nat → Except String α)
    (maxAttempts baseDelay : Nat) :
    Except (Option String) α × List Nat × Nat :=
  retryGo results maxAttempts baseDelay none 1

/-! ## `out_of_capacity_auto_apply` (lines 2726-2756)

Each apply attempt is a subprocess result; the loop is modelled as a function
from the attempt index to that attempt's result.  The return value is the
success flag, the list of sleeps performed, and the raw combined output that
was surfaced on a non-retryable failure (`none` otherwise). -/

structure ApplyResult where
  returncode : Int
  stdout : String
  stderr : String

/-- `output = result.stdout + result.stderr` (line 2739). -/
def applyOutput (r : ApplyResult) : String :=
  r.stdout ++ r.stderr

def autoApplyGo (results : Nat → ApplyResult) (maxAttempts baseDelay : Nat)
    (attempt : Nat) : Bool × List Nat × Option String :=
  if _h1 : attempt ≤ maxAttempts then
    let r := results attempt
    if r.returncode = 0 then
      (true, [], none)
    else if isCapacitySignal (applyOutput r) then
      if _h2 : attempt < maxAttempts then
        let rest := autoApplyGo results maxAttempts baseDelay (attempt + 1)
        (rest.1, baseDelay * 2 ^ (attempt - 1) :: rest.2.1, rest.2.2)
      else
        (false, [], none)
    else
      (false, [], some (applyOutput r))
  else
    (false, [], none)
termination_by maxAttempts + 1 - attempt

def out_of_capacity_auto_apply (results : Nat → ApplyResult) :
    Bool × List Nat × Option String :=
  autoApplyGo results RETRY_MAX_ATTEMPTS RETRY_BASE_DELAY 1

/-! ## Inventory and `calculate_available_resources` (lines 1559-1578)

Only the fields read by the quota calculator and the planner are modelled:
`additional_info.get("ocpus", 0)` etc. become `Option Int` fields read with
`Option.getD 0`. -/

structure ExistingInstance where
  name : String
  ocpus : Option Int
  memory : Option Int
deriving DecidableEq

structure ExistingVolume where
  size : Option Int
deriving DecidableEq

structure Inventory where
  amd_instances : List (String × ExistingInstance)
  arm_instances : List (String × ExistingInstance)
  boot_volumes : List (String × ExistingVolume)
  block_volumes : List (String × ExistingVolume)

structure Available where
  amd_instances : Int
  arm_ocpus : Int
  arm_memory : Int
  storage : Int
  used_arm_instances : Nat
deriving DecidableEq

def calculate_available_resources (inv : Inventory) : Available :=
  let used_amd : Int := inv.amd_instances.length
  let used_arm_ocpus : Int := (inv.arm_instances.map (fun p => p.2.ocpus.getD 0)).sum
  let used_arm_memory : Int := (inv.arm_instances.map (fun p => p.2.memory.getD 0)).sum
  let used_storage : Int :=
    (inv.boot_volumes.map (fun p => p.2.size.getD 0)).sum +
    (inv.block_volumes.map (fun p => p.2.size.getD 0)).sum
  { amd_instances := FREE_TIER_MAX_AMD_INSTANCES - used_amd
    arm_ocpus := FREE_TIER_MAX_ARM_OCPUS - used_arm_ocpus
    arm_memory := FREE_TIER_MAX_ARM_MEMORY_GB - used_arm_memory
    storage := FREE_TIER_MAX_STORAGE_GB - used_storage
    used_arm_instances := inv.arm_instances.length }

/-! ## `InstanceConfig` (lines 120-131) -/

structure InstanceConfig where
  amd_micro_instance_count : Int := 0
  amd_micro_boot_volume_size_gb : Int := 50
  arm_flex_instance_count : Int := 0
  arm_flex_ocpus_per_instance : List Int := []
  arm_flex_memory_per_instance : List Int := []
  arm_flex_boot_volume_size_gb : List Int := []
  arm_flex_block_volumes : List Int := []
  amd_micro_hostnames : List String := []
  arm_flex_hostnames : List String := []
deriving DecidableEq

/-! ## `configure_from_existing_instances` (lines 1707-1738) -/

def configure_from_existing_instances (inv : Inventory) : InstanceConfig :=
  let base : InstanceConfig :=
    { amd_micro_instance_count := inv.amd_instances.length
      amd_micro_hostnames := inv.amd_instances.map (fun p => p.2.name)
      arm_flex_instance_count := inv.arm_instances.length
      arm_flex_hostnames := inv.arm_instances.map (fun p => p.2.name)
      arm_flex_ocpus_per_instance := inv.arm_instances.map (fun p => p.2.ocpus.getD 0)
      arm_flex_memory_per_instance := inv.arm_instances.map (fun p => p.2.memory.getD 0)
      arm_flex_boot_volume_size_gb := List.replicate inv.arm_instances.length 50
      arm_flex_block_volumes := List.replicate inv.arm_instances.length 0
      amd_micro_boot_volume_size_gb := 50 }
  if base.amd_micro_instance_count = 0 ∧ base.arm_flex_instance_count = 0 then
    { base with
      amd_micro_instance_count := 0
      arm_flex_instance_count := 1
      arm_flex_ocpus_per_instance := [4]
      arm_flex_memory_per_instance := [24]
      arm_flex_boot_volume_size_gb := [200]
      arm_flex_hostnames := ["arm-instance-1"]
      arm_flex_block_volumes := [0] }
  else
    base

/-! ## `configure_custom_instances` (lines 1740-1813)

The interactive prompts are modelled as inputs: each prompt function maps the
(1-indexed) instance number to the user's entry, with `none` meaning the user
accepted the prompt's default (the default for OCPUs is the running remaining
headroom, for memory the computed `max_memory`, for boot volumes 50). -/

structure UserInput where
  amd_count : Int
  amd_boot : Int
  amd_hostname : Nat → String
  arm_count : Int
  arm_hostname : Nat → String
  arm_ocpus : Nat → Option Int
  arm_memory : Nat → Option Int
  arm_boot : Nat → Option Int

/-- The per-instance ARM loop of lines 1784-1806, carrying the running
`remaining_ocpus` / `remaining_memory` counters.  Returns the parallel lists
(hostnames, ocpus, memory, boot sizes, block volumes). -/
def armConfigLoop (u : UserInput) :
    Nat → Int → Int → Nat → List String × List Int × List Int × List Int × List Int
  | 0, _, _, _ => ([], [], [], [], [])
  | k + 1, remO, remM, i =>
    let hostname := u.arm_hostname i
    let ocpus := max 1 (min ((u.arm_ocpus i).getD remO) remO)
    let maxMem := min (ocpus * 6) remM
    let memory := max 1 (min ((u.arm_memory i).getD maxMem) maxMem)
    let boot := max 50 (min ((u.arm_boot i).getD 50) 200)
    let rest := armConfigLoop u k (remO - ocpus) (remM - memory) (i + 1)
    (hostname :: rest.1, ocpus :: rest.2.1, memory :: rest.2.2.1,
     boot :: rest.2.2.2.1, 0 :: rest.2.2.2.2)

def configure_custom_instances (armImage : String) (available : Available)
    (u : UserInput) : InstanceConfig :=
  let amdCount := max 0 (min u.amd_count available.amd_instances)
  let amdBoot := if amdCount > 0 then max 50 (min u.amd_boot 100) else (50 : Int)
  let amdHostnames := (List.range amdCount.toNat).map (fun i => u.amd_hostname (i + 1))
  if armImage ≠ "" ∧ available.arm_ocpus > 0 then
    let armCount := max 0 (min u.arm_count 4)
    let arrays := armConfigLoop u armCount.toNat available.arm_ocpus available.arm_memory 1
    { amd_micro_instance_count := amdCount
      amd_micro_boot_volume_size_gb := amdBoot
      amd_micro_hostnames := amdHostnames
      arm_flex_instance_count := armCount
      arm_flex_hostnames := arrays.1
      arm_flex_ocpus_per_instance := arrays.2.1
      arm_flex_memory_per_instance := arrays.2.2.1
      arm_flex_boot_volume_size_gb := arrays.2.2.2.1
      arm_flex_block_volumes := arrays.2.2.2.2 }
  else
    { amd_micro_instance_count := amdCount
      amd_micro_boot_volume_size_gb := amdBoot
      amd_micro_hostnames := amdHostnames
      arm_flex_instance_count := 0
      arm_flex_hostnames := []
      arm_flex_ocpus_per_instance := []
      arm_flex_memory_per_instance := []
      arm_flex_boot_volume_size_gb := []
      arm_flex_block_volumes := [] }

/-! ## `configure_maximum_free_tier` (lines 1815-1853) -/

def configure_maximum_free_tier (armImage : String) (available : Available) :
    InstanceConfig :=
  let amdCount := available.amd_instances
  let amdBoot : Int := 50
  let amdHostnames :=
    (List.range amdCount.toNat).map (fun i => "amd-instance-" ++ toString (i + 1))
  if armImage ≠ "" ∧ available.arm_ocpus > 0 then
    let usedByAmd := amdCount * amdBoot
    let remainingStorage := available.storage - usedByAmd
    let remainingStorage :=
      if remainingStorage < FREE_TIER_MIN_BOOT_VOLUME_GB then FREE_TIER_MIN_BOOT_VOLUME_GB
      else remainingStorage
    { amd_micro_instance_count := amdCount
      amd_micro_boot_volume_size_gb := amdBoot
      amd_micro_hostnames := amdHostnames
      arm_flex_instance_count := 1
      arm_flex_ocpus_per_instance := [available.arm_ocpus]
      arm_flex_memory_per_instance := [available.arm_memory]
      arm_flex_boot_volume_size_gb := [remainingStorage]
      arm_flex_hostnames := ["arm-instance-1"]
      arm_flex_block_volumes := [0] }
  else
    { amd_micro_instance_count := amdCount
      amd_micro_boot_volume_size_gb := amdBoot
      amd_micro_hostnames := amdHostnames
      arm_flex_instance_count := 0
      arm_flex_ocpus_per_instance := []
      arm_flex_memory_per_instance := []
      arm_flex_boot_volume_size_gb := []
      arm_flex_hostnames := []
      arm_flex_block_volumes := [] }

/-! ## `load_existing_config` (lines 1607-1660)

The function reads `variables.tf` and extracts each field with an independent
regular-expression search.  The extraction results are taken here as the
input record: a field is `none` when its pattern did not match, in which case
the source leaves the previous value of that field in place (counts and the
AMD boot size instead fall back to `0` / `50`).  The assignments below mirror
lines 1618-1657 one for one; no length validation is performed. -/

structure VariablesTfMatches where
  amd_count : Option Int
  amd_boot : Option Int
  arm_count : Option Int
  arm_ocpus : Option (List Int)
  arm_memory : Option (List Int)
  arm_boot : Option (List Int)
  amd_hostnames : Option (List String)
  arm_hostnames : Option (List String)

def load_existing_config (m : VariablesTfMatches) (c : InstanceConfig) :
    InstanceConfig :=
  { amd_micro_instance_count := m.amd_count.getD 0
    amd_micro_boot_volume_size_gb := m.amd_boot.getD 50
    arm_flex_instance_count := m.arm_count.getD 0
    arm_flex_ocpus_per_instance := m.arm_ocpus.getD c.arm_flex_ocpus_per_instance
    arm_flex_memory_per_instance := m.arm_memory.getD c.arm_flex_memory_per_instance
    arm_flex_boot_volume_size_gb := m.arm_boot.getD c.arm_flex_boot_volume_size_gb
    arm_flex_block_volumes := c.arm_flex_block_volumes
    amd_micro_hostnames := m.amd_hostnames.getD c.amd_micro_hostnames
    arm_flex_hostnames := m.arm_hostnames.getD c.arm_flex_hostnames }

/-- The parallel-array invariant of the data model: all ARM per-instance
arrays have length equal to the ARM instance count. -/
def armArraysInvariant (c : InstanceConfig) : Prop :=
  (c.arm_flex_ocpus_per_instance.length : Int) = c.arm_flex_instance_count ∧
  (c.arm_flex_memory_per_instance.length : Int) = c.arm_flex_instance_count ∧
  (c.arm_flex_boot_volume_size_gb.length : Int) = c.arm_flex_instance_count ∧
  (c.arm_flex_hostnames.length : Int) = c.arm_flex_instance_count

/-! ## Reconciliation driver: `import_existing_resources` (lines 2557-2658)
and `import_vcn_components` (lines 2660-2720)

The driver is modelled by the trace of terraform `state show` / `import`
commands it issues.  The fixed logical addresses of the source are mirrored
by the constructors of `TfAddr` (`addrString` gives the literal address).
The outcomes of the external terraform calls are oracles of the environment:
`stateShown a` is whether `terraform state show` at address `a` exits 0, and
`importOk a` whether the import at `a` succeeds (the source issues instance
and VCN imports through `run_cmd_with_retries_and_check`, modelled here as a
single logical import call with an outcome oracle).  The `terraform init`
step at the top of the function issues no state/import commands and is
omitted from the trace. -/

inductive TfAddr where
  | vcn
  | internetGateway
  | subnet
  | defaultRouteTable
  | defaultSecurityList
  | amd (i : Nat)
  | arm (i : Nat)
deriving DecidableEq

/-- The literal terraform address each `TfAddr` stands for. -/
def addrString : TfAddr → String
  | TfAddr.vcn => "oci_core_vcn.main"
  | TfAddr.internetGateway => "oci_core_internet_gateway.main"
  | TfAddr.subnet => "oci_core_subnet.main"
  | TfAddr.defaultRouteTable => "oci_core_default_route_table.main"
  | TfAddr.defaultSecurityList => "oci_core_default_security_list.main"
  | TfAddr.amd i => "oci_core_instance.amd[" ++ toString i ++ "]"
  | TfAddr.arm i => "oci_core_instance.arm[" ++ toString i ++ "]"

inductive TfAction where
  | stateShow (addr : TfAddr)
  | importRes (addr : TfAddr) (rid : String)
deriving DecidableEq

/-- A VCN-scoped network resource: display name and the
`additional_info["vcn_id"]` parent reference recorded at inventory time. -/
structure NetResource where
  name : String
  vcn_id : Option String
deriving DecidableEq

structure TfEnv where
  vcns : List (String × String)
  amd_instances : List (String × String)
  arm_instances : List (String × String)
  internet_gateways : List (String × NetResource)
  subnets : List (String × NetResource)
  route_tables : List (String × NetResource)
  security_lists : List (String × NetResource)
  amd_count : Int
  arm_count : Int
  stateShown : TfAddr → Bool
  importOk : TfAddr → Bool

/-- `additional_info.get("vcn_id") == vcn_id` (lines 2663, 2678, 2693, 2708). -/
def vcnMatch (v : String) (p : String × NetResource) : Bool :=
  decide (p.2.vcn_id = some v)

/-- The route-table / security-list filter also requires `"Default" in name
or "default" in name` (lines 2693, 2708). -/
def vcnDefaultMatch (v : String) (p : String × NetResource) : Bool :=
  vcnMatch v p && (strContainsSub p.2.name "Default" || strContainsSub p.2.name "default")

/-- One `for ... if ... break` block of `import_vcn_components`: the first
matching resource (if any) gets a `state show` probe and, when absent from
state, an import. -/
def componentStep (env : TfEnv) (addr : TfAddr) (found : Option (String × NetResource)) :
    List TfAction :=
  match found with
  | none => []
  | some (rid, _) =>
    TfAction.stateShow addr ::
      (if env.stateShown addr then [] else [TfAction.importRes addr rid])

def import_vcn_components (env : TfEnv) (vcnId : String) : List TfAction :=
  componentStep env TfAddr.internetGateway (env.internet_gateways.find? (vcnMatch vcnId)) ++
  componentStep env TfAddr.subnet (env.subnets.find? (vcnMatch vcnId)) ++
  componentStep env TfAddr.defaultRouteTable (env.route_tables.find? (vcnDefaultMatch vcnId)) ++
  componentStep env TfAddr.defaultSecurityList (env.security_lists.find? (vcnDefaultMatch vcnId))

/-- The per-category instance loop (lines 2602-2654): the index advances over
the first `count` discovered instances; each gets a `state show` probe at its
indexed address and, when absent, an import of its provider identifier. -/
def instanceImports (env : TfEnv) (mk : Nat → TfAddr) (insts : List (String × String))
    (count : Int) : List TfAction :=
  ((insts.take count.toNat).enum).flatMap (fun p =>
    TfAction.stateShow (mk p.1) ::
      (if env.stateShown (mk p.1) then [] else [TfAction.importRes (mk p.1) p.2.1]))

/-- The VCN block of lines 2581-2600: only the first key of the VCN mapping
is considered; on a successful import the component cascade runs. -/
def vcnImportSection (env : TfEnv) : List TfAction :=
  match env.vcns with
  | [] => []
  | (firstVcnId, _) :: _ =>
    TfAction.stateShow TfAddr.vcn ::
      (if env.stateShown TfAddr.vcn then []
       else
        TfAction.importRes TfAddr.vcn firstVcnId ::
          (if env.importOk TfAddr.vcn then import_vcn_components env firstVcnId else []))

def import_existing_resources (env : TfEnv) : List TfAction :=
  if env.vcns.isEmpty ∧ env.amd_instances.isEmpty ∧ env.arm_instances.isEmpty then []
  else
    vcnImportSection env ++
    instanceImports env TfAddr.amd env.amd_instances env.amd_count ++
    instanceImports env TfAddr.arm env.arm_instances env.arm_count

/-- Identifier freshness: `v` is not the identifier of any discovered
instance or network component. -/
def idFresh (env : TfEnv) (v : String) : Prop :=
  v ∉ env.amd_instances.map Prod.fst ∧
  v ∉ env.arm_instances.map Prod.fst ∧
  v ∉ env.internet_gateways.map Prod.fst ∧
  v ∉ env.subnets.map Prod.fst ∧
  v ∉ env.route_tables.map Prod.fst ∧
  v ∉ env.security_lists.map Prod.fst

/-! ## Concrete inputs used by witnesses and counterexamples -/

/-- Every apply attempt fails with the spec's retryable capacity message. -/
def c2ResCapacity : Nat → ApplyResult :=
  fun _ => { returncode := 1, stdout := "Out of host capacity: Limit exceeded", stderr := "" }

/-- Every apply attempt fails with the spec's non-retryable message. -/
def c2ResInvalid : Nat → ApplyResult :=
  fun _ => { returncode := 1, stdout := "Invalid parameter: shape", stderr := "" }

/-- A retried operation that fails on every attempt. -/
def c3AllFail : Nat → Except String Unit :=
  fun i => Except.error ("attempt " ++ toString i ++ " failed")

def c4Err : Nat → String :=
  fun i => "failure at attempt " ++ toString i

/-- A retried operation that fails on every attempt, with per-attempt errors. -/
def c4AllFail : Nat → Except String Unit :=
  fun i => Except.error (c4Err i)

/-- A tenancy already holding three AMD-shaped instances: its AMD headroom
is 2 - 3 = -1. -/
def c5Inventory : Inventory :=
  { amd_instances :=
      [("ocid.amd.1", { name := "paid-1", ocpus := none, memory := none }),
       ("ocid.amd.2", { name := "paid-2", ocpus := none, memory := none }),
       ("ocid.amd.3", { name := "paid-3", ocpus := none, memory := none })]
    arm_instances := []
    boot_volumes := []
    block_volumes := [] }

def c6Available : Available :=
  { amd_instances := 2, arm_ocpus := 4, arm_memory := 24, storage := 200,
    used_arm_instances := 0 }

/-- Two ARM instances: the first requests 3 OCPUs, the second accepts every
default. -/
def c6Input : UserInput :=
  { amd_count := 0, amd_boot := 50, amd_hostname := fun _ => "amd"
    arm_count := 2, arm_hostname := fun _ => "arm"
    arm_ocpus := fun i => if i = 1 then some 3 else none
    arm_memory := fun _ => none, arm_boot := fun _ => none }

/-- A saved `variables.tf` whose count line says 2 ARM instances but whose
OCPU array holds a single entry. -/
def c7Matches : VariablesTfMatches :=
  { amd_count := none, amd_boot := none, arm_count := some 2
    arm_ocpus := some [1], arm_memory := none, arm_boot := none
    amd_hostnames := none, arm_hostnames := none }

/-- Four ARM instances each requesting 4 OCPUs against 4 available. -/
def c9Input : UserInput :=
  { amd_count := 0, amd_boot := 50, amd_hostname := fun _ => "amd"
    arm_count := 4, arm_hostname := fun _ => "arm"
    arm_ocpus := fun _ => some 4
    arm_memory := fun _ => none, arm_boot := fun _ => none }

/-- An environment where every address is already present in state. -/
def c8Env : TfEnv :=
  { vcns := [("ocid.vcn.1", "main-vcn")]
    amd_instances := [("ocid.amd.1", "amd-1")]
    arm_instances := [("ocid.arm.1", "arm-1")]
    internet_gateways := [("ocid.ig.1", { name := "gw", vcn_id := some "ocid.vcn.1" })]
    subnets := [("ocid.sub.1", { name := "sn", vcn_id := some "ocid.vcn.1" })]
    route_tables := [("ocid.rt.1", { name := "Default Route Table", vcn_id := some "ocid.vcn.1" })]
    security_lists := [("ocid.sl.1", { name := "Default Security List", vcn_id := some "ocid.vcn.1" })]
    amd_count := 1, arm_count := 1
    stateShown := fun _ => true
    importOk := fun _ => true }

/-- An environment with two discovered VCNs, nothing yet in state. -/
def c10Env : TfEnv :=
  { vcns := [("ocid.vcn.first", "vcn-a"), ("ocid.vcn.second", "vcn-b")]
    amd_instances := []
    arm_instances := []
    internet_gateways := [("ocid.ig.1", { name := "gw", vcn_id := some "ocid.vcn.first" })]
    subnets := [("ocid.sub.1", { name := "sn", vcn_id := some "ocid.vcn.first" }),
                ("ocid.sub.2", { name := "sn2", vcn_id := some "ocid.vcn.second" })]
    route_tables := [("ocid.rt.1", { name := "Default Route Table", vcn_id := some "ocid.vcn.first" })]
    security_lists := [("ocid.sl.1", { name := "Default Security List", vcn_id := some "ocid.vcn.first" })]
    amd_count := 0, arm_count := 0
    stateShown := fun _ => false
    importOk := fun _ => true }

/-! ## Helper lemmas about the retry loop -/

theorem retryGo_step_error {α : Type} (results : Nat → Except String α)
    (maxAttempts baseDelay attempt : Nat) (lastError : Option String) (e : String)
    (hlt : attempt < maxAttempts) (he : results attempt = Except.error e) :
    retryGo results maxAttempts baseDelay lastError attempt =
      ((retryGo results maxAttempts baseDelay (some e) (attempt + 1)).1,
       baseDelay * 2 ^ (attempt - 1) ::
         (retryGo results maxAttempts baseDelay (some e) (attempt + 1)).2.1,
       (retryGo results maxAttempts baseDelay (some e) (attempt + 1)).2.2 + 1) := by
  rw [retryGo]
  simp [Nat.le_of_lt hlt, hlt, he]

theorem retryGo_last_error {α : Type} (results : Nat → Except String α)
    (maxAttempts baseDelay attempt : Nat) (lastError : Option String) (e : String)
    (hle : attempt ≤ maxAttempts) (hnlt : ¬ attempt < maxAttempts)
    (he : results attempt = Except.error e) :
    retryGo results maxAttempts baseDelay lastError attempt =
      (Except.error (some e), [], 1) := by
  rw [retryGo]
  simp [hle, hnlt, he]

theorem retryGo_all_fail {α : Type} (results : Nat → Except String α) (err : Nat → String)
    (maxAttempts baseDelay : Nat) (hfail : ∀ i, results i = Except.error (err i)) :
    ∀ (k attempt : Nat) (lastError : Option String), attempt + k = maxAttempts →
      1 ≤ attempt →
      (retryGo results maxAttempts baseDelay lastError attempt).1 =
          Except.error (some (err maxAttempts)) ∧
      (retryGo results maxAttempts baseDelay lastError attempt).2.1.length = k ∧
      (retryGo results maxAttempts baseDelay lastError attempt).2.2 = k + 1 := by
  intro k
  induction k with
  | zero =>
    intro attempt lastError hsum h1
    have heq : attempt = maxAttempts := by omega
    rw [retryGo_last_error results maxAttempts baseDelay attempt lastError (err attempt)
      (by omega) (by omega) (hfail attempt)]
    subst heq
    exact ⟨rfl, rfl, rfl⟩
  | succ k ih =>
    intro attempt lastError hsum h1
    have hlt : attempt < maxAttempts := by omega
    rw [retryGo_step_error results maxAttempts baseDelay attempt lastError (err attempt)
      hlt (hfail attempt)]
    obtain ⟨ha, hb, hc⟩ := ih (attempt + 1) (some (err attempt)) (by omega) (by omega)
    refine ⟨ha, ?_, ?_⟩
    · simpa using hb
    · simpa using hc

theorem retryGo_sleep_get {α : Type} (results : Nat → Except String α)
    (maxAttempts baseDelay : Nat) :
    ∀ (k attempt : Nat) (lastError : Option String), 1 ≤ attempt →
      (∀ i, attempt ≤ i → i ≤ attempt + k → ∃ e, results i = Except.error e) →
      attempt + k < maxAttempts →
      (retryGo results maxAttempts baseDelay lastError attempt).2.1.get? k =
        some (baseDelay * 2 ^ (attempt + k - 1)) := by
  intro k
  induction k with
  | zero =>
    intro attempt lastError h1 hfail hbound
    obtain ⟨e, he⟩ := hfail attempt (le_refl attempt) (by omega)
    rw [retryGo_step_error results maxAttempts baseDelay attempt lastError e (by omega) he]
    rfl
  | succ k ih =>
    intro attempt lastError h1 hfail hbound
    obtain ⟨e, he⟩ := hfail attempt (le_refl attempt) (by omega)
    rw [retryGo_step_error results maxAttempts baseDelay attempt lastError e (by omega) he]
    have hrec := ih (attempt + 1) (some e) (by omega)
      (fun i hi hi2 => hfail i (by omega) (by omega)) (by omega)
    have harith : attempt + 1 + k - 1 = attempt + (k + 1) - 1 := by omega
    rw [harith] at hrec
    simpa using hrec

/-! ## Claim theorems -/

/-- C1: For every inventory, the computed headroom in each quota dimension
equals the fixed Free Tier limit minus the amount used by existing
resources: available AMD instances = 2 minus the count of existing AMD
instances, available ARM OCPUs = 4 minus the sum of OCPUs across existing
ARM instances, available ARM memory = 24 minus the sum of memory across
existing ARM instances, and available storage = 200 minus the sum of all
existing boot-volume and block-volume sizes. -/
theorem c1_headroom_formulas (inv : Inventory) :
    (calculate_available_resources inv).amd_instances =
        2 - (inv.amd_instances.length : Int) ∧
    (calculate_available_resources inv).arm_ocpus =
        4 - (inv.arm_instances.map (fun p => p.2.ocpus.getD 0)).sum ∧
    (calculate_available_resources inv).arm_memory =
        24 - (inv.arm_instances.map (fun p => p.2.memory.getD 0)).sum ∧
    (calculate_available_resources inv).storage =
        200 - ((inv.boot_volumes.map (fun p => p.2.size.getD 0)).sum +
               (inv.block_volumes.map (fun p => p.2.size.getD 0)).sum) :=
  ⟨rfl, rfl, rfl, rfl⟩

/-- C3: For every retried operation, the backoff delay slept after failed
attempt n (1-indexed) before attempt n+1 equals base_delay * 2^(n-1); with
the default base delay of 15 seconds this gives 15s after attempt 1, 30s
after attempt 2, 60s after attempt 3. -/
theorem c3_backoff_delay {α : Type} (results : Nat → Except String α)
    (maxAttempts baseDelay n : Nat) (h1 : 1 ≤ n) (hlt : n < maxAttempts)
    (hfail : ∀ i, 1 ≤ i → i ≤ n → ∃ e, results i = Except.error e) :
    (retry_with_backoff results maxAttempts baseDelay).2.1.get? (n - 1) =
      some (baseDelay * 2 ^ (n - 1)) := by
  have h := retryGo_sleep_get results maxAttempts baseDelay (n - 1) 1 none (le_refl 1)
    (fun i hi hi2 => hfail i hi (by omega)) (by omega)
  have harith : 1 + (n - 1) - 1 = n - 1 := by omega
  rw [harith] at h
  exact h

/-- Witness for C3 at the defaults: base delay 15, max attempts 8, an
operation failing on every attempt; the first three sleeps are 15, 30, 60
seconds. -/
theorem c3_backoff_delay_witness :
    (retry_with_backoff c3AllFail 8 15).2.1.get? 0 = some (15 * 2 ^ 0) ∧
    (retry_with_backoff c3AllFail 8 15).2.1.get? 1 = some (15 * 2 ^ 1) ∧
    (retry_with_backoff c3AllFail 8 15).2.1.get? 2 = some (15 * 2 ^ 2) :=
  ⟨c3_backoff_delay c3AllFail 8 15 1 (by omega) (by omega)
      (fun i _ _ => ⟨"attempt " ++ toString i ++ " failed", rfl⟩),
   c3_backoff_delay c3AllFail 8 15 2 (by omega) (by omega)
      (fun i _ _ => ⟨"attempt " ++ toString i ++ " failed", rfl⟩),
   c3_backoff_delay c3AllFail 8 15 3 (by omega) (by omega)
      (fun i _ _ => ⟨"attempt " ++ toString i ++ " failed", rfl⟩)⟩

/-- C4: For every retried operation that fails on every attempt, the retry
loop performs exactly max_attempts attempts (never max_attempts + 1), then
terminates and surfaces the error from the last attempt; no backoff sleep
occurs after the final attempt (there are exactly max_attempts - 1 sleeps). -/
theorem c4_retry_exhaustion {α : Type} (results : Nat → Except String α)
    (err : Nat → String) (maxAttempts baseDelay : Nat) (hmax : 1 ≤ maxAttempts)
    (hfail : ∀ i, results i = Except.error (err i)) :
    (retry_with_backoff results maxAttempts baseDelay).2.2 = maxAttempts ∧
    (retry_with_backoff results maxAttempts baseDelay).1 =
        Except.error (some (err maxAttempts)) ∧
    (retry_with_backoff results maxAttempts baseDelay).2.1.length = maxAttempts - 1 := by
  obtain ⟨ha, hb, hc⟩ := retryGo_all_fail results err maxAttempts baseDelay hfail
    (maxAttempts - 1) 1 none (by omega) (by omega)
  refine ⟨?_, ha, hb⟩
  rw [retry_with_backoff, hc]
  omega

/-- Witness for C4: with max attempts 8, an always-failing operation executes
exactly 8 attempts, surfaces attempt 8's error, and sleeps 7 times. -/
theorem c4_retry_exhaustion_witness :
    (retry_with_backoff c4AllFail 8 15).2.2 = 8 ∧
    (retry_with_backoff c4AllFail 8 15).1 = Except.error (some (c4Err 8)) ∧
    (retry_with_backoff c4AllFail 8 15).2.1.length = 7 :=
  c4_retry_exhaustion c4AllFail c4Err 8 15 (by omega) (fun _ => rfl)

theorem isCapacitySignal_iff (s : String) :
    isCapacitySignal s = true ↔
      (lowerContains s "out of capacity" = true ∨
       lowerContains s "out of host capacity" = true ∨
       lowerContains s "outofcapacity" = true ∨
       lowerContains s "outofhostcapacity" = true) := by
  simp [isCapacitySignal, capacityTerms]

/-- C2: During the apply retry loop, a failed apply is retried if and only if
its combined stdout/stderr text contains one of the four case-insensitive
substrings "out of capacity", "out of host capacity", "outofcapacity",
"outofhostcapacity"; any other apply failure aborts the loop immediately,
without sleeping, surfacing the raw error output. -/
theorem c2_apply_retry_classification (results : Nat → ApplyResult)
    (maxAttempts baseDelay attempt : Nat) (hle : attempt ≤ maxAttempts)
    (hfail : (results attempt).returncode ≠ 0) :
    (isCapacitySignal (applyOutput (results attempt)) = false →
        autoApplyGo results maxAttempts baseDelay attempt =
          (false, [], some (applyOutput (results attempt)))) ∧
    (isCapacitySignal (applyOutput (results attempt)) = true → attempt < maxAttempts →
        autoApplyGo results maxAttempts baseDelay attempt =
          ((autoApplyGo results maxAttempts baseDelay (attempt + 1)).1,
           baseDelay * 2 ^ (attempt - 1) ::
             (autoApplyGo results maxAttempts baseDelay (attempt + 1)).2.1,
           (autoApplyGo results maxAttempts baseDelay (attempt + 1)).2.2)) ∧
    (isCapacitySignal (applyOutput (results attempt)) = true ↔
      (lowerContains (applyOutput (results attempt)) "out of capacity" = true ∨
       lowerContains (applyOutput (results attempt)) "out of host capacity" = true ∨
       lowerContains (applyOutput (results attempt)) "outofcapacity" = true ∨
       lowerContains (applyOutput (results attempt)) "outofhostcapacity" = true)) := by
  refine ⟨?_, ?_, isCapacitySignal_iff _⟩
  · intro hcap
    rw [autoApplyGo]
    simp [hle, hfail, hcap]
  · intro hcap hlt
    rw [autoApplyGo]
    simp [hle, hfail, hcap, hlt]

/-- Witness for C2: the apply failure "Invalid parameter: shape" aborts the
loop at once with the raw output surfaced and no sleep, while
"Out of host capacity: Limit exceeded" is retried after a 15-second sleep. -/
theorem c2_apply_retry_classification_witness :
    autoApplyGo c2ResInvalid 8 15 1 = (false, [], some (applyOutput (c2ResInvalid 1))) ∧
    autoApplyGo c2ResCapacity 8 15 1 =
      ((autoApplyGo c2ResCapacity 8 15 2).1,
       15 * 2 ^ 0 :: (autoApplyGo c2ResCapacity 8 15 2).2.1,
       (autoApplyGo c2ResCapacity 8 15 2).2.2) := by
  constructor
  · exact (c2_apply_retry_classification c2ResInvalid 8 15 1 (by omega) (by decide)).1
      (by decide)
  · exact (c2_apply_retry_classification c2ResCapacity 8 15 1 (by omega) (by decide)).2.1
      (by decide) (by omega)

/-! ## Helper lemmas about the custom-planner ARM loop -/

theorem armConfigLoop_bounds (u : UserInput) :
    ∀ (k : Nat) (remO remM : Int) (i : Nat),
      (∀ x ∈ (armConfigLoop u k remO remM i).2.1, 1 ≤ x) ∧
      (∀ x ∈ (armConfigLoop u k remO remM i).2.2.1, 1 ≤ x) ∧
      (∀ x ∈ (armConfigLoop u k remO remM i).2.2.2.1, 50 ≤ x) := by
  intro k
  induction k with
  | zero =>
    intro remO remM i
    simp [armConfigLoop]
  | succ k ih =>
    intro remO remM i
    refine ⟨?_, ?_, ?_⟩ <;> intro x hx
    · simp only [armConfigLoop, List.mem_cons] at hx
      rcases hx with h | h
      · subst h; exact le_max_left 1 _
      · exact (ih _ _ _).1 x h
    · simp only [armConfigLoop, List.mem_cons] at hx
      rcases hx with h | h
      · subst h; exact le_max_left 1 _
      · exact (ih _ _ _).2.1 x h
    · simp only [armConfigLoop, List.mem_cons] at hx
      rcases hx with h | h
      · subst h; exact le_max_left 50 _
      · exact (ih _ _ _).2.2 x h

theorem armConfigLoop_lengths (u : UserInput) :
    ∀ (k : Nat) (remO remM : Int) (i : Nat),
      (armConfigLoop u k remO remM i).1.length = k ∧
      (armConfigLoop u k remO remM i).2.1.length = k ∧
      (armConfigLoop u k remO remM i).2.2.1.length = k ∧
      (armConfigLoop u k remO remM i).2.2.2.1.length = k ∧
      (armConfigLoop u k remO remM i).2.2.2.2.length = k := by
  intro k
  induction k with
  | zero =>
    intro remO remM i
    simp [armConfigLoop]
  | succ k ih =>
    intro remO remM i
    refine ⟨?_, ?_, ?_, ?_, ?_⟩ <;> simp only [armConfigLoop, List.length_cons]
    · rw [(ih _ _ _).1]
    · rw [(ih _ _ _).2.1]
    · rw [(ih _ _ _).2.2.1]
    · rw [(ih _ _ _).2.2.2.1]
    · rw [(ih _ _ _).2.2.2.2]

/-- C5 counterexample: the claim that every planner strategy clamps negative
headroom to zero fails on the maximum-utilization strategy: with three
existing AMD-shaped instances in the tenancy the computed AMD headroom is
-1, and `configure_maximum_free_tier` copies it unclamped, producing an
InstancePlan with a negative AMD instance count. -/
theorem c5_counterexample :
    (configure_maximum_free_tier "ocid.image.arm"
        (calculate_available_resources c5Inventory)).amd_micro_instance_count = -1 ∧
    (configure_maximum_free_tier "ocid.image.arm"
        (calculate_available_resources c5Inventory)).amd_micro_instance_count < 0 := by
  decide

/-- C5 (amended): The custom/interactive planner clamps every headroom-bound
value before use (AMD count to at least 0, ARM per-instance OCPUs and memory
to at least 1, boot volumes to at least 50), so it never produces a negative
instance count or allocation, and the raw possibly-negative headroom is kept
in the Available record; the maximum-utilization strategy however assigns
the raw AMD headroom unclamped. -/
theorem c5_amended_clamping (armImage : String) (available : Available)
    (u : UserInput) :
    0 ≤ (configure_custom_instances armImage available u).amd_micro_instance_count ∧
    (∀ x ∈ (configure_custom_instances armImage available u).arm_flex_ocpus_per_instance,
        1 ≤ x) ∧
    (∀ x ∈ (configure_custom_instances armImage available u).arm_flex_memory_per_instance,
        1 ≤ x) ∧
    (∀ x ∈ (configure_custom_instances armImage available u).arm_flex_boot_volume_size_gb,
        50 ≤ x) ∧
    (configure_maximum_free_tier armImage available).amd_micro_instance_count =
        available.amd_instances := by
  refine ⟨?_, ?_, ?_, ?_, ?_⟩
  · simp only [configure_custom_instances]
    split
    · exact le_max_left 0 _
    · exact le_max_left 0 _
  · simp only [configure_custom_instances]
    split
    · exact (armConfigLoop_bounds u _ _ _ _).1
    · simp
  · simp only [configure_custom_instances]
    split
    · exact (armConfigLoop_bounds u _ _ _ _).2.1
    · simp
  · simp only [configure_custom_instances]
    split
    · exact (armConfigLoop_bounds u _ _ _ _).2.2
    · simp
  · simp only [configure_maximum_free_tier]
    split
    · rfl
    · rfl

/-- Witness for C5 (amended) at a concrete custom-planner run. -/
theorem c5_amended_clamping_witness :
    0 ≤ (configure_custom_instances "ocid.image.arm" c6Available c6Input).amd_micro_instance_count ∧
    (configure_maximum_free_tier "ocid.image.arm" c6Available).amd_micro_instance_count =
      c6Available.amd_instances :=
  ⟨(c5_amended_clamping "ocid.image.arm" c6Available c6Input).1,
   (c5_amended_clamping "ocid.image.arm" c6Available c6Input).2.2.2.2⟩

/-- C6: In the custom/interactive planner, ARM OCPU allocation decrements a
running remaining-headroom counter across instances within one plan, so
instance i+1's maximum depends on instance i's actual choice: given 4 total
available OCPUs and two ARM instances where the first requests 3 and the
second leaves its request at the default (the remaining headroom), the
second instance is allocated exactly 1 OCPU, never more. -/
theorem c6_sequential_arm_allocation (armImage : String) (available : Available)
    (u : UserInput) (himg : armImage ≠ "") (hocpus : available.arm_ocpus = 4)
    (hcount : u.arm_count = 2) (h1 : u.arm_ocpus 1 = some 3)
    (h2 : u.arm_ocpus 2 = none) :
    (configure_custom_instances armImage available u).arm_flex_ocpus_per_instance =
      [3, 1] := by
  have hcond : armImage ≠ "" ∧ available.arm_ocpus > 0 := ⟨himg, by omega⟩
  simp only [configure_custom_instances]
  rw [if_pos hcond]
  show (armConfigLoop u (max 0 (min u.arm_count 4)).toNat available.arm_ocpus
      available.arm_memory 1).2.1 = [3, 1]
  rw [hcount, hocpus]
  norm_num
  simp only [armConfigLoop, h1, h2, Option.getD_some, Option.getD_none, min_self]
  norm_num [min_def, max_def]

/-- Witness for C6 at a concrete prompt transcript. -/
theorem c6_sequential_arm_allocation_witness :
    (configure_custom_instances "ocid.image.arm" c6Available c6Input).arm_flex_ocpus_per_instance =
      [3, 1] :=
  c6_sequential_arm_allocation "ocid.image.arm" c6Available c6Input (by decide) rfl rfl
    (by decide) (by decide)

/-- C7 counterexample: the from-saved strategy (`load_existing_config`) takes
each count and array straight from its own regex match with no
cross-validation, so a saved file declaring 2 ARM instances but a
single-entry OCPU array yields a plan violating the parallel-array
invariant. -/
theorem c7_counterexample :
    ¬ armArraysInvariant (load_existing_config c7Matches {}) := by
  simp only [armArraysInvariant]
  decide

/-- C7 (amended): Every InstancePlan produced by the from-existing,
custom/interactive, or maximum-utilization planner strategies satisfies the
parallel-array invariant (ARM OCPU, memory, boot-volume-size and hostname
arrays all have length equal to the ARM instance count); the from-saved
strategy copies the parsed file's values without length validation and can
violate it. -/
theorem c7_amended_invariant (inv : Inventory) (armImage : String)
    (available : Available) (u : UserInput) :
    armArraysInvariant (configure_from_existing_instances inv) ∧
    armArraysInvariant (configure_custom_instances armImage available u) ∧
    armArraysInvariant (configure_maximum_free_tier armImage available) := by
  refine ⟨?_, ?_, ?_⟩
  · simp only [configure_from_existing_instances, armArraysInvariant]
    split
    · simp
    · simp
  · simp only [configure_custom_instances, armArraysInvariant]
    split
    · obtain ⟨l1, l2, l3, l4, l5⟩ := armConfigLoop_lengths u
        (max 0 (min u.arm_count 4)).toNat available.arm_ocpus available.arm_memory 1
      refine ⟨?_, ?_, ?_, ?_⟩
      · rw [l2, Int.toNat_of_nonneg (le_max_left 0 _)]
      · rw [l3, Int.toNat_of_nonneg (le_max_left 0 _)]
      · rw [l4, Int.toNat_of_nonneg (le_max_left 0 _)]
      · rw [l1, Int.toNat_of_nonneg (le_max_left 0 _)]
    · simp [armArraysInvariant]
  · simp only [configure_maximum_free_tier, armArraysInvariant]
    split
    · simp
    · simp

/-- Witness for C7 (amended) at concrete inputs. -/
theorem c7_amended_invariant_witness :
    armArraysInvariant (configure_from_existing_instances c5Inventory) ∧
    armArraysInvariant (configure_custom_instances "ocid.image.arm" c6Available c6Input) ∧
    armArraysInvariant (configure_maximum_free_tier "ocid.image.arm" c6Available) :=
  c7_amended_invariant c5Inventory "ocid.image.arm" c6Available c6Input

/-- C9: In the custom/interactive planner, every ARM instance's clamped OCPU
allocation is at least 1 regardless of remaining headroom (the clamp is
max(1, min(requested, remaining))): when the remaining OCPU counter has
reached 0, a further instance still receives 1 OCPU, so for some inputs the
plan's total allocated ARM OCPUs exceeds the initially available headroom
(four instances each requesting 4 against 4 available get 4, 1, 1, 1 — a
total of 7). -/
theorem c9_ocpu_floor_overallocation :
    (∀ (armImage : String) (available : Available) (u : UserInput),
       ∀ x ∈ (configure_custom_instances armImage available u).arm_flex_ocpus_per_instance,
         1 ≤ x) ∧
    (configure_custom_instances "ocid.image.arm" c6Available c9Input).arm_flex_ocpus_per_instance =
        [4, 1, 1, 1] ∧
    c6Available.arm_ocpus <
      ((configure_custom_instances "ocid.image.arm" c6Available
          c9Input).arm_flex_ocpus_per_instance).sum := by
  refine ⟨?_, by decide, by decide⟩
  intro armImage available u
  simp only [configure_custom_instances]
  split
  · exact (armConfigLoop_bounds u _ _ _ _).1
  · simp

/-- Witness for C9: the floor applies at the concrete over-allocation run. -/
theorem c9_ocpu_floor_overallocation_witness :
    1 ≤ ((configure_custom_instances "ocid.image.arm" c6Available
        c9Input).arm_flex_ocpus_per_instance).headI :=
  c9_ocpu_floor_overallocation.1 "ocid.image.arm" c6Available c9Input _ (by decide)

/-! ## Helper lemmas about the import trace -/

theorem componentStep_import_mem (env : TfEnv) (addr : TfAddr)
    (found : Option (String × NetResource)) (a : TfAddr) (rid : String)
    (h : TfAction.importRes a rid ∈ componentStep env addr found) :
    a = addr ∧ env.stateShown addr = false ∧ ∃ r, found = some (rid, r) := by
  cases found with
  | none => simp [componentStep] at h
  | some p =>
    obtain ⟨id0, r0⟩ := p
    by_cases hS : env.stateShown addr
    · simp [componentStep, hS] at h
    · simp only [componentStep, if_neg hS, List.mem_cons, List.not_mem_nil,
        or_false] at h
      rcases h with h | h
      · simp at h
      · obtain ⟨ha, hr⟩ := TfAction.importRes.inj h
        exact ⟨ha, by simpa using hS, r0, by rw [hr]⟩

theorem import_vcn_components_mem (env : TfEnv) (v : String) (a : TfAddr)
    (rid : String) (h : TfAction.importRes a rid ∈ import_vcn_components env v) :
    env.stateShown a = false ∧
    ((a = TfAddr.internetGateway ∧
        ∃ r, env.internet_gateways.find? (vcnMatch v) = some (rid, r)) ∨
     (a = TfAddr.subnet ∧ ∃ r, env.subnets.find? (vcnMatch v) = some (rid, r)) ∨
     (a = TfAddr.defaultRouteTable ∧
        ∃ r, env.route_tables.find? (vcnDefaultMatch v) = some (rid, r)) ∨
     (a = TfAddr.defaultSecurityList ∧
        ∃ r, env.security_lists.find? (vcnDefaultMatch v) = some (rid, r))) := by
  simp only [import_vcn_components, List.mem_append] at h
  rcases h with ((h | h) | h) | h
  · obtain ⟨ha, hS, r, hf⟩ := componentStep_import_mem env _ _ _ _ h
    exact ⟨ha ▸ hS, Or.inl ⟨ha, r, hf⟩⟩
  · obtain ⟨ha, hS, r, hf⟩ := componentStep_import_mem env _ _ _ _ h
    exact ⟨ha ▸ hS, Or.inr (Or.inl ⟨ha, r, hf⟩)⟩
  · obtain ⟨ha, hS, r, hf⟩ := componentStep_import_mem env _ _ _ _ h
    exact ⟨ha ▸ hS, Or.inr (Or.inr (Or.inl ⟨ha, r, hf⟩))⟩
  · obtain ⟨ha, hS, r, hf⟩ := componentStep_import_mem env _ _ _ _ h
    exact ⟨ha ▸ hS, Or.inr (Or.inr (Or.inr ⟨ha, r, hf⟩))⟩

theorem vcnImportSection_mem (env : TfEnv) (a : TfAddr) (rid : String)
    (h : TfAction.importRes a rid ∈ vcnImportSection env) :
    env.stateShown a = false ∧
    ∃ fid fn rest, env.vcns = (fid, fn) :: rest ∧
      ((a = TfAddr.vcn ∧ rid = fid) ∨
       TfAction.importRes a rid ∈ import_vcn_components env fid) := by
  cases hv : env.vcns with
  | nil => simp [vcnImportSection, hv] at h
  | cons head tail =>
    obtain ⟨fid, fn⟩ := head
    rw [vcnImportSection, hv] at h
    by_cases hS : env.stateShown TfAddr.vcn
    · simp [hS] at h
    · simp only [if_neg hS, List.mem_cons] at h
      rcases h with h | h | h
      · simp at h
      · obtain ⟨ha, hr⟩ := TfAction.importRes.inj h
        exact ⟨by rw [ha]; simpa using hS, fid, fn, tail, rfl, Or.inl ⟨ha, hr⟩⟩
      · by_cases hOk : env.importOk TfAddr.vcn
        · rw [if_pos hOk] at h
          obtain ⟨hSa, _⟩ := import_vcn_components_mem env fid a rid h
          exact ⟨hSa, fid, fn, tail, rfl, Or.inr h⟩
        · simp [hOk] at h

theorem instanceImports_import_mem (env : TfEnv) (mk : Nat → TfAddr)
    (insts : List (String × String)) (count : Int) (a : TfAddr) (rid : String)
    (h : TfAction.importRes a rid ∈ instanceImports env mk insts count) :
    env.stateShown a = false ∧ rid ∈ insts.map Prod.fst ∧ ∃ i, a = mk i := by
  simp only [instanceImports, List.mem_flatMap] at h
  obtain ⟨p, hp, hmem⟩ := h
  by_cases hS : env.stateShown (mk p.1)
  · simp [hS] at hmem
  · simp only [if_neg hS, List.mem_cons, List.not_mem_nil, or_false] at hmem
    rcases hmem with hmem | hmem
    · simp at hmem
    · obtain ⟨ha, hr⟩ := TfAction.importRes.inj hmem
      have hp2 : p.2 ∈ insts.take count.toNat := by
        have := List.mem_map_of_mem Prod.snd hp
        rwa [List.enum_map_snd] at this
      have hmem2 : rid ∈ insts.map Prod.fst := by
        rw [hr]
        exact List.map_subset Prod.fst (List.take_subset _ _)
          (List.mem_map_of_mem Prod.fst hp2)
      exact ⟨by rw [ha]; simpa using hS, by simpa using hmem2, p.1, ha⟩

theorem import_trace_mem (env : TfEnv) (a : TfAddr) (rid : String)
    (h : TfAction.importRes a rid ∈ import_existing_resources env) :
    env.stateShown a = false ∧
    ((∃ fid fn rest, env.vcns = (fid, fn) :: rest ∧
        ((a = TfAddr.vcn ∧ rid = fid) ∨
         TfAction.importRes a rid ∈ import_vcn_components env fid)) ∨
     (rid ∈ env.amd_instances.map Prod.fst ∧ ∃ i, a = TfAddr.amd i) ∨
     (rid ∈ env.arm_instances.map Prod.fst ∧ ∃ i, a = TfAddr.arm i)) := by
  rw [import_existing_resources] at h
  by_cases hempty : env.vcns.isEmpty ∧ env.amd_instances.isEmpty ∧ env.arm_instances.isEmpty
  · simp [hempty] at h
  · rw [if_neg hempty] at h
    simp only [List.mem_append] at h
    rcases h with (h | h) | h
    · obtain ⟨hS, hrest⟩ := vcnImportSection_mem env a rid h
      exact ⟨hS, Or.inl hrest⟩
    · obtain ⟨hS, hmem, hi⟩ := instanceImports_import_mem env _ _ _ _ _ h
      exact ⟨hS, Or.inr (Or.inl ⟨hmem, hi⟩)⟩
    · obtain ⟨hS, hmem, hi⟩ := instanceImports_import_mem env _ _ _ _ _ h
      exact ⟨hS, Or.inr (Or.inr ⟨hmem, hi⟩)⟩

/-- C8: During reconciliation, for every resource whose logical address is
already present in Terraform state (the state-show check succeeds), the
driver never issues an import call for that address; the import step is
skipped and treated as success. -/
theorem c8_import_skip (env : TfEnv) (addr : TfAddr)
    (hshown : env.stateShown addr = true) :
    ∀ rid, TfAction.importRes addr rid ∉ import_existing_resources env := by
  intro rid h
  obtain ⟨hS, _⟩ := import_trace_mem env addr rid h
  rw [hshown] at hS
  cases hS

/-- Witness for C8: with every address already in state, no import of the
discovered VCN is issued. -/
theorem c8_import_skip_witness :
    TfAction.importRes TfAddr.vcn "ocid.vcn.1" ∉ import_existing_resources c8Env :=
  c8_import_skip c8Env TfAddr.vcn rfl "ocid.vcn.1"

/-- C10: The reconciliation driver only ever attempts to import the first
discovered VCN (the first key of the VCN inventory mapping): for every
tenancy with two or more existing VCNs whose identifiers are distinct from
all other resource identifiers, no import call is issued for any VCN after
the first, and the cascade import of internet gateway, subnet, default
route table and default security list is attempted only for resources whose
parent reference is that first VCN. -/
theorem c10_first_vcn_only (env : TfEnv) (fid fname : String)
    (rest : List (String × String)) (hv : env.vcns = (fid, fname) :: rest)
    (vid vname : String) (_hmem : (vid, vname) ∈ rest) (hne : vid ≠ fid)
    (hfresh : idFresh env vid) :
    (∀ a : TfAddr, TfAction.importRes a vid ∉ import_existing_resources env) ∧
    (∀ rid, TfAction.importRes TfAddr.internetGateway rid ∈ import_existing_resources env →
        ∃ r, (rid, r) ∈ env.internet_gateways ∧ r.vcn_id = some fid) ∧
    (∀ rid, TfAction.importRes TfAddr.subnet rid ∈ import_existing_resources env →
        ∃ r, (rid, r) ∈ env.subnets ∧ r.vcn_id = some fid) ∧
    (∀ rid, TfAction.importRes TfAddr.defaultRouteTable rid ∈ import_existing_resources env →
        ∃ r, (rid, r) ∈ env.route_tables ∧ r.vcn_id = some fid) ∧
    (∀ rid, TfAction.importRes TfAddr.defaultSecurityList rid ∈ import_existing_resources env →
        ∃ r, (rid, r) ∈ env.security_lists ∧ r.vcn_id = some fid) := by
  obtain ⟨hf1, hf2, hf3, hf4, hf5, hf6⟩ := hfresh
  refine ⟨?_, ?_, ?_, ?_, ?_⟩
  · intro a h
    obtain ⟨_, hcase⟩ := import_trace_mem env a vid h
    rcases hcase with ⟨fid2, fn2, rest2, hv2, hcase⟩ | ⟨hmem2, _⟩ | ⟨hmem2, _⟩
    · rw [hv] at hv2
      obtain ⟨hpair, _⟩ := List.cons.inj hv2
      have hfid : fid = fid2 := congrArg Prod.fst hpair
      rcases hcase with ⟨_, hvid⟩ | hcomp
      · exact hne (hvid.trans hfid.symm)
      · obtain ⟨_, hc⟩ := import_vcn_components_mem env fid2 a vid hcomp
        rcases hc with ⟨_, r, hfind⟩ | ⟨_, r, hfind⟩ | ⟨_, r, hfind⟩ | ⟨_, r, hfind⟩
        · exact hf3 (List.mem_map_of_mem Prod.fst (List.mem_of_find?_eq_some hfind))
        · exact hf4 (List.mem_map_of_mem Prod.fst (List.mem_of_find?_eq_some hfind))
        · exact hf5 (List.mem_map_of_mem Prod.fst (List.mem_of_find?_eq_some hfind))
        · exact hf6 (List.mem_map_of_mem Prod.fst (List.mem_of_find?_eq_some hfind))
    · exact hf1 hmem2
    · exact hf2 hmem2
  · intro rid h
    obtain ⟨_, hcase⟩ := import_trace_mem env TfAddr.internetGateway rid h
    rcases hcase with ⟨fid2, fn2, rest2, hv2, hcase⟩ | ⟨_, i, hi⟩ | ⟨_, i, hi⟩
    · rw [hv] at hv2
      obtain ⟨hpair, _⟩ := List.cons.inj hv2
      have hfid : fid = fid2 := congrArg Prod.fst hpair
      rcases hcase with ⟨ha, _⟩ | hcomp
      · exact absurd ha (by simp)
      · obtain ⟨_, hc⟩ := import_vcn_components_mem env fid2 TfAddr.internetGateway rid hcomp
        rcases hc with ⟨_, r, hfind⟩ | ⟨ha, _⟩ | ⟨ha, _⟩ | ⟨ha, _⟩
        · refine ⟨r, List.mem_of_find?_eq_some hfind, ?_⟩
          have := List.find?_some hfind
          rw [hfid]
          exact of_decide_eq_true this
        · exact absurd ha (by simp)
        · exact absurd ha (by simp)
        · exact absurd ha (by simp)
    · exact absurd hi (by simp)
    · exact absurd hi (by simp)
  · intro rid h
    obtain ⟨_, hcase⟩ := import_trace_mem env TfAddr.subnet rid h
    rcases hcase with ⟨fid2, fn2, rest2, hv2, hcase⟩ | ⟨_, i, hi⟩ | ⟨_, i, hi⟩
    · rw [hv] at hv2
      obtain ⟨hpair, _⟩ := List.cons.inj hv2
      have hfid : fid = fid2 := congrArg Prod.fst hpair
      rcases hcase with ⟨ha, _⟩ | hcomp
      · exact absurd ha (by simp)
      · obtain ⟨_, hc⟩ := import_vcn_components_mem env fid2 TfAddr.subnet rid hcomp
        rcases hc with ⟨ha, _⟩ | ⟨_, r, hfind⟩ | ⟨ha, _⟩ | ⟨ha, _⟩
        · exact absurd ha (by simp)
        · refine ⟨r, List.mem_of_find?_eq_some hfind, ?_⟩
          have := List.find?_some hfind
          rw [hfid]
          exact of_decide_eq_true this
        · exact absurd ha (by simp)
        · exact absurd ha (by simp)
    · exact absurd hi (by simp)
    · exact absurd hi (by simp)
  · intro rid h
    obtain ⟨_, hcase⟩ := import_trace_mem env TfAddr.defaultRouteTable rid h
    rcases hcase with ⟨fid2, fn2, rest2, hv2, hcase⟩ | ⟨_, i, hi⟩ | ⟨_, i, hi⟩
    · rw [hv] at hv2
      obtain ⟨hpair, _⟩ := List.cons.inj hv2
      have hfid : fid = fid2 := congrArg Prod.fst hpair
      rcases hcase with ⟨ha, _⟩ | hcomp
      · exact absurd ha (by simp)
      · obtain ⟨_, hc⟩ := import_vcn_components_mem env fid2 TfAddr.defaultRouteTable rid hcomp
        rcases hc with ⟨ha, _⟩ | ⟨ha, _⟩ | ⟨_, r, hfind⟩ | ⟨ha, _⟩
        · exact absurd ha (by simp)
        · exact absurd ha (by simp)
        · refine ⟨r, List.mem_of_find?_eq_some hfind, ?_⟩
          have := List.find?_some hfind
          have hand := (Bool.and_eq_true _ _).mp this
          rw [hfid]
          exact of_decide_eq_true hand.1
        · exact absurd ha (by simp)
    · exact absurd hi (by simp)
    · exact absurd hi (by simp)
  · intro rid h
    obtain ⟨_, hcase⟩ := import_trace_mem env TfAddr.defaultSecurityList rid h
    rcases hcase with ⟨fid2, fn2, rest2, hv2, hcase⟩ | ⟨_, i, hi⟩ | ⟨_, i, hi⟩
    · rw [hv] at hv2
      obtain ⟨hpair, _⟩ := List.cons.inj hv2
      have hfid : fid = fid2 := congrArg Prod.fst hpair
      rcases hcase with ⟨ha, _⟩ | hcomp
      · exact absurd ha (by simp)
      · obtain ⟨_, hc⟩ := import_vcn_components_mem env fid2 TfAddr.defaultSecurityList rid hcomp
        rcases hc with ⟨ha, _⟩ | ⟨ha, _⟩ | ⟨ha, _⟩ | ⟨_, r, hfind⟩
        · exact absurd ha (by simp)
        · exact absurd ha (by simp)
        · exact absurd ha (by simp)
        · refine ⟨r, List.mem_of_find?_eq_some hfind, ?_⟩
          have := List.find?_some hfind
          have hand := (Bool.and_eq_true _ _).mp this
          rw [hfid]
          exact of_decide_eq_true hand.1
    · exact absurd hi (by simp)
    · exact absurd hi (by simp)

/-- Witness for C10: with two discovered VCNs, the second VCN's identifier
is never imported. -/
theorem c10_first_vcn_only_witness :
    TfAction.importRes TfAddr.vcn "ocid.vcn.second" ∉ import_existing_resources c10Env :=
  (c10_first_vcn_only c10Env "ocid.vcn.first" "vcn-a" [("ocid.vcn.second", "vcn-b")] rfl
    "ocid.vcn.second" "vcn-b" (by decide) (by decide)
    (by unfold idFresh; decide)).1 TfAddr.vcn

end CloudCradle
